import Mathlib

/-!
Shallow embedding of the window-tracking resampling engine of `yvsfunc`
(`yvsfunc/resample.py` and `yvsfunc/misc.py`), together with theorems about
its window arithmetic, border compensation, dimension selection and the
`repair` clamp filter dispatch.

Pixel buffers (`vs.VideoNode` values) are modelled as a syntax tree of the
primitive plugin calls the library issues (`VNode`); the library never
inspects pixel data itself, it only chains such calls and tracks the
geometry (width/height/bit depth) and the floating cropping metadata, which
we model exactly with rationals.
-/

set_option maxHeartbeats 1000000

namespace Yvsfunc

/-- Kernel selected by `_get_descaler` / `_get_scaler` in `resample.py`:
each valid kernel name resolves to a primitive together with its shape
parameters (`b`, `c` for bicubic; `taps` for lanczos). -/
inductive DKernel where
  | bilinear
  | bicubic (b c : ℚ)
  | lanczos (taps : ℤ)
  | spline16
  | spline36
  | spline64

/-- A VapourSynth clip, modelled as the tree of primitive calls that
produced it.  `src` is an arbitrary input clip (with an identifier, pixel
dimensions and bit depth); the other constructors record exactly the
plugin invocations made by the embedded library code, with all their
numeric arguments. -/
inductive VNode where
  | src (id w h bits : ℤ)
  | gray (c : VNode)
  | depth (c : VNode) (bits : ℤ) (range : Option (Bool × Bool))
  | descaled (k : DKernel) (c : VNode) (w h : ℤ) (sl st sw sh : ℚ)
  | scaled (k : DKernel) (c : VNode) (w h : ℤ) (sl st sw sh : ℚ)
  | addBorders (c : VNode) (l r t b : ℤ) (color : Option ℚ)
  | cropped (c : VNode) (l r t b : ℤ)
  | transposed (c : VNode)
  | filtered (tag : ℤ) (c : VNode) (field : ℤ) (dh : Bool) (vcheck : Option ℤ) (sclip : Option VNode)
  | exprNode (x y : VNode) (e : String)

mutual

/-- Pixel width of a clip (`clip.width`). -/
def VNode.width : VNode → ℤ
  | .src _ w _ _ => w
  | .gray c => c.width
  | .depth c _ _ => c.width
  | .descaled _ _ w _ _ _ _ _ => w
  | .scaled _ _ w _ _ _ _ _ => w
  | .addBorders c l r _ _ _ => c.width + l + r
  | .cropped c l r _ _ => c.width - l - r
  | .transposed c => c.height
  | .filtered _ c _ _ _ _ => c.width
  | .exprNode x _ _ => x.width

/-- Pixel height of a clip (`clip.height`); a `dh=True` interpolation
doubles it, a transpose swaps it with the width. -/
def VNode.height : VNode → ℤ
  | .src _ _ h _ => h
  | .gray c => c.height
  | .depth c _ _ => c.height
  | .descaled _ _ _ h _ _ _ _ => h
  | .scaled _ _ _ h _ _ _ _ => h
  | .addBorders c _ _ t b _ => c.height + t + b
  | .cropped c _ _ t b => c.height - t - b
  | .transposed c => c.width
  | .filtered _ c _ dh _ _ => if dh then 2 * c.height else c.height
  | .exprNode x _ _ => x.height

end

/-- Bits per sample of a clip (`clip.format.bits_per_sample`); only
`fmtc.bitdepth` changes it. -/
def VNode.bits : VNode → ℤ
  | .src _ _ _ bits => bits
  | .gray c => c.bits
  | .depth _ bits _ => bits
  | .descaled _ c _ _ _ _ _ _ => c.bits
  | .scaled _ c _ _ _ _ _ _ => c.bits
  | .addBorders c _ _ _ _ _ => c.bits
  | .cropped c _ _ _ _ => c.bits
  | .transposed c => c.bits
  | .filtered _ c _ _ _ _ => c.bits
  | .exprNode x _ _ => x.bits

/-- Model of `ResClip`: a clip together with floating cropping args
(`sx`, `sy`, `sw`, `sh`), the effective source window. -/
structure ResClip where
  clip : VNode
  sx : ℚ
  sy : ℚ
  sw : ℚ
  sh : ℚ

/-- The `ResClip` constructor: `sw`/`sh` default to the clip's own pixel
dimensions when not given. -/
def ResClip.make (clip : VNode) (sx sy : ℚ) (sw sh : Option ℚ) : ResClip :=
  ⟨clip, sx, sy, sw.getD (clip.width : ℚ), sh.getD (clip.height : ℚ)⟩

/-- Model of `ResClip.copy`: copy with substitutions (`None` inherits the field). -/
def ResClip.copy (r : ResClip) (clip : Option VNode) (sx sy sw sh : Option ℚ) : ResClip :=
  ⟨clip.getD r.clip, sx.getD r.sx, sy.getD r.sy, sw.getD r.sw, sh.getD r.sh⟩

/-- Model of `ResClip.transpose` (the copy path): transposes the clip and swaps
`(sx, sy)` and `(sw, sh)`. -/
def ResClip.transpose (r : ResClip) : ResClip :=
  ⟨.transposed r.clip, r.sy, r.sx, r.sh, r.sw⟩

/-- Model of `ResClip.crop` (the copy path): no-op when all margins are zero,
otherwise crops the clip and shifts `sx`/`sy` by the removed margins. -/
def ResClip.crop (rc : ResClip) (left right top bottom : ℤ) : ResClip :=
  if left = 0 ∧ right = 0 ∧ top = 0 ∧ bottom = 0 then rc
  else ⟨.cropped rc.clip left right top bottom, rc.sx - left, rc.sy - top, rc.sw, rc.sh⟩

/-- Model of `_get_descaler` from `resample.py`: kernel name to descale primitive,
or a `ValueError` for an unknown name. -/
def get_descaler (kernel : String) (b c : ℚ) (taps : ℤ) : Except String DKernel :=
  if kernel = "bilinear" then .ok .bilinear
  else if kernel = "bicubic" then .ok (.bicubic b c)
  else if kernel = "lanczos" then .ok (.lanczos taps)
  else if kernel = "spline16" then .ok .spline16
  else if kernel = "spline36" then .ok .spline36
  else if kernel = "spline64" then .ok .spline64
  else .error ("invalid kernel specified: " ++ kernel)

/-- Model of `_get_scaler` from `resample.py`: kernel name to the matching upscale
primitive; same kernel set and parameters as `get_descaler`. -/
def get_scaler (kernel : String) (b c : ℚ) (taps : ℤ) : Except String DKernel :=
  if kernel = "bilinear" then .ok .bilinear
  else if kernel = "bicubic" then .ok (.bicubic b c)
  else if kernel = "lanczos" then .ok (.lanczos taps)
  else if kernel = "spline16" then .ok .spline16
  else if kernel = "spline36" then .ok .spline36
  else if kernel = "spline64" then .ok .spline64
  else .error ("invalid kernel specified: " ++ kernel)

/-- The kernel-name normalization `descale` performs before resolving the
kernel (`resample.py` lines 206-208): lowercase, and strip a leading
`de`. -/
def normalize_kernel (kernel : String) : String :=
  let chars := kernel.data.map Char.toLower
  let chars := if List.isPrefixOf ['d', 'e'] chars then chars.drop 2 else chars
  ⟨chars⟩

/-- Model of `descale` from `resample.py`.  Returns either a single `ResClip`
(`with_diff = false`) or the pair of downscaled result and rescaling-error
plane (`with_diff = true`); an invalid kernel raises (is an `error`). -/
def descale (clip : ResClip) (width height : ℤ) (kernel : String) (b c : ℚ) (taps : ℤ)
    (src_left src_top : ℚ) (src_width src_height : Option ℚ) (with_diff : Bool) :
    Except String (Sum ResClip (ResClip × ResClip)) :=
  let src_width : ℚ := src_width.getD (width : ℚ)
  let src_height : ℚ := src_height.getD (height : ℚ)
  let ratio_w := src_width / (clip.clip.width : ℚ)
  let ratio_h := src_height / (clip.clip.height : ℚ)
  let dst_sx := src_left + ratio_w * clip.sx
  let dst_sw :=            ratio_w * clip.sw
  let dst_sy := src_top  + ratio_h * clip.sy
  let dst_sh :=            ratio_h * clip.sh
  let clip_depth := clip.clip.bits
  let y32 := VNode.depth (VNode.gray clip.clip) 32 none
  let kernel := normalize_kernel kernel
  match get_descaler kernel b c taps with
  | .error e => .error e
  | .ok dk =>
    let down := VNode.descaled dk y32 width height src_left src_top src_width src_height
    if with_diff then
      match get_scaler kernel b c taps with
      | .error e => .error e
      | .ok sk =>
        let up := VNode.scaled sk down y32.width y32.height src_left src_top src_width src_height
        let diff := VNode.exprNode y32 up "x y - abs"
        if clip_depth ≠ 32 then
          .ok (.inr (⟨VNode.depth down 32 none, dst_sx, dst_sy, dst_sw, dst_sh⟩,
                     ⟨VNode.depth diff 32 (some (false, true)), clip.sx, clip.sy, clip.sw, clip.sh⟩))
        else
          .ok (.inr (⟨down, dst_sx, dst_sy, dst_sw, dst_sh⟩,
                     ⟨diff, clip.sx, clip.sy, clip.sw, clip.sh⟩))
    else
      .ok (.inl ⟨VNode.depth down clip_depth none, dst_sx, dst_sy, dst_sw, dst_sh⟩)

/-- The downscaled result of a `descale`-style return value (the single
result, or the first of the returned pair). -/
def firstRes : Sum ResClip (ResClip × ResClip) → ResClip
  | .inl r => r
  | .inr (d, _) => d

/-- The diff plane of a `descale`-style return value (the second of the
returned pair; the single result itself otherwise). -/
def sndRes : Sum ResClip (ResClip × ResClip) → ResClip
  | .inl r => r
  | .inr (_, f) => f

/-- Whether a `descale`-style return value is the two-element form. -/
def isDiffPair : Sum ResClip (ResClip × ResClip) → Bool
  | .inl _ => false
  | .inr _ => true

/-- The successful payload of a `descale`-style call (an arbitrary
placeholder on the error path). -/
def okRes (x : Except String (Sum ResClip (ResClip × ResClip))) :
    Sum ResClip (ResClip × ResClip) :=
  match x with
  | .ok r => r
  | .error _ => .inl ⟨VNode.src 0 0 0 0, 0, 0, 0, 0⟩

/-- The adjusted source rectangle passed to `descale` by `bdescale`
(`descale_cropping_args` in `resample.py`). -/
structure CropArgs where
  src_left : ℚ
  src_width : ℚ
  width : ℤ
  src_top : ℚ
  src_height : ℚ
  height : ℤ

/-- The integer border counts `bdescale` crops from the descaled result
(`descale_border_args` in `resample.py`). -/
structure BorderArgs where
  left : ℤ
  right : ℤ
  top : ℤ
  bottom : ℤ

/-- The border arithmetic of `bdescale` (`resample.py` lines 266-308):
given the gray plane's dimensions, the target dimensions, the source
rectangle and the requested destination-space borders, computes the
adjusted cropping args for the inner `descale` call and the integer
border counts to crop from its output. -/
def bdescale_args (yw yh : ℤ) (width height : ℤ) (src_left src_top src_width src_height : ℚ)
    (left right top bottom : ℤ) : CropArgs × BorderArgs :=
  let ratio_w : ℚ := src_width / (yw : ℚ)
  let ratio_h : ℚ := src_height / (yh : ℚ)
  -- The minimal number of extra pixels on the left
  let extra_left : ℚ := left * ratio_w - src_left
  let extra_left_int : ℤ := ⌈extra_left⌉
  -- Negative values are not allowed
  let (extra_left, extra_left_int) :=
    if extra_left_int < 0 then (extra_left - extra_left_int, 0) else (extra_left, extra_left_int)
  -- On the right
  let extra_right : ℚ := right * ratio_w + src_left + src_width - width
  let extra_right_int : ℤ := ⌈extra_right⌉
  -- We don't adjust extra_right because it's not used for cropping
  let extra_right_int := if extra_right_int < 0 then 0 else extra_right_int
  -- On the top
  let extra_top : ℚ := top * ratio_h - src_top
  let extra_top_int : ℤ := ⌈extra_top⌉
  let (extra_top, extra_top_int) :=
    if extra_top_int < 0 then (extra_top - extra_top_int, 0) else (extra_top, extra_top_int)
  -- On the bottom
  let extra_bottom : ℚ := bottom * ratio_h + src_top + src_height - height
  let extra_bottom_int : ℤ := ⌈extra_bottom⌉
  let extra_bottom_int := if extra_bottom_int < 0 then 0 else extra_bottom_int
  (⟨extra_left_int - extra_left, extra_left + extra_right + width,
    extra_left_int + extra_right_int + width,
    extra_top_int - extra_top, extra_top + extra_bottom + height,
    extra_top_int + extra_bottom_int + height⟩,
   ⟨extra_left_int, extra_right_int, extra_top_int, extra_bottom_int⟩)

/-- Model of `bdescale` from `resample.py`: descale with black borders added
internally to suppress border ringing; returns raw clips because the
cropping args of the results are invalid. -/
def bdescale (clip : ResClip) (width height : ℤ) (kernel : String) (b c : ℚ) (taps : ℤ)
    (src_left src_top : ℚ) (src_width src_height : Option ℚ)
    (left right top bottom : ℤ) (color : Option ℚ) (with_diff : Bool) :
    Except String (Sum VNode (VNode × VNode)) :=
  if left = 0 ∧ top = 0 ∧ right = 0 ∧ bottom = 0 then
    match descale clip width height kernel b c taps src_left src_top src_width src_height with_diff with
    | .error e => .error e
    | .ok (.inr (down, diff)) => .ok (.inr (down.clip, diff.clip))
    | .ok (.inl down) => .ok (.inl down.clip)
  else
    let src_width : ℚ := src_width.getD (width : ℚ)
    let src_height : ℚ := src_height.getD (height : ℚ)
    let y : ResClip := ResClip.make (VNode.gray clip.clip) 0 0 none none
    let (ca, ba) := bdescale_args y.clip.width y.clip.height width height
      src_left src_top src_width src_height left right top bottom
    let y : ResClip := { y with clip := VNode.addBorders y.clip left right top bottom color }
    match descale y ca.width ca.height kernel b c taps ca.src_left ca.src_top
        (some ca.src_width) (some ca.src_height) with_diff with
    | .error e => .error e
    | .ok (.inr (down, diff)) =>
        .ok (.inr ((down.crop ba.left ba.right ba.top ba.bottom).clip,
                   (diff.crop left right top bottom).clip))
    | .ok (.inl down) => .ok (.inl ((down.crop ba.left ba.right ba.top ba.bottom).clip))

/-- The dimension/parity selection of `fdescale` (`resample.py` lines
352-362): source dimensions from the ratio, default base dimensions as
multiples of 16 and 18, the symmetric strip, and the centering offsets. -/
structure FDims where
  src_width : ℚ
  src_height : ℚ
  base_width : ℤ
  base_height : ℤ
  width : ℤ
  height : ℤ
  src_left : ℚ
  src_top : ℚ

/-- Computes the derived dimensions of `fdescale` for a gray plane of the
given size and a scaling ratio . -/
def fdescale_dims (yw yh : ℤ) ( ratio : ℚ) (base_width base_height : Option ℤ) : FDims :=
  let src_width : ℚ := (yw : ℚ) * ratio
  let src_height : ℚ := (yh : ℚ) * ratio
  let base_width : ℤ := base_width.getD (⌈src_width / 16⌉ * 16)
  let base_height : ℤ := base_height.getD (⌈src_height / 18⌉ * 18)
  -- Strip
  let width : ℤ := base_width - 2 * ⌊((base_width : ℚ) - src_width) / 2⌋
  let height : ℤ := base_height - 2 * ⌊((base_height : ℚ) - src_height) / 2⌋
  ⟨src_width, src_height, base_width, base_height, width, height,
   ((width : ℚ) - src_width) / 2, ((height : ℚ) - src_height) / 2⟩

/-- Model of `fdescale` from `resample.py`: descale with a certain ratio ; existing
cropping args are discarded and the strip is symmetric.  (The unused
`src_*` parameters of the Python signature, which are unconditionally
reassigned before use, are omitted.) -/
def fdescale (clip : ResClip) ( ratio : ℚ) (base_width base_height : Option ℤ)
    (kernel : String) (b c : ℚ) (taps : ℤ) (with_diff : Bool) :
    Except String (Sum ResClip (ResClip × ResClip)) :=
  if ratio ≤ 0 ∨ 1 ≤ ratio then .error "fdescale: ratio must be within (0, 1)"
  else
    let y : ResClip := ResClip.make (VNode.gray clip.clip) 0 0 none none -- cropping cleared
    let d := fdescale_dims y.clip.width y.clip.height ratio base_width base_height
    descale y d.width d.height kernel b c taps d.src_left d.src_top
      (some d.src_width) (some d.src_height) with_diff

/-- The arguments a deinterlacing/doubling filter call receives: the clip,
the field parity, whether the height is doubled, and (for edge-directed
filters) the `vcheck` level and the consistency-reference clip. -/
structure FilterArgs where
  clip : VNode
  field : ℤ
  dh : Bool
  vcheck : Option ℤ
  sclip : Option VNode

/-- A doubling filter, as passed around by `interpolate`/`aa2x`/`ee2x`. -/
def Deint := FilterArgs → VNode

/-- Model of `get_nnedi3` from `resample.py`: resolves the default fast doubling
filter (the nnedi3 plugin, OpenCL or not), modelled as a primitive call
tagged with the plugin choice. -/
def get_nnedi3 (opencl : Bool) : Deint :=
  fun a => VNode.filtered (if opencl then 1 else 0) a.clip a.field a.dh a.vcheck a.sclip

/-- Model of `interpolate` from `resample.py`: single-axis doubling.  With only one
filter (or none: the default nnedi3) that filter runs alone; with both,
the edge-directed filter runs with the fast result as `sclip` reference,
optionally returning both results. -/
def interpolate (clip : ResClip) (nnedi3 eedi3 : Option Deint)
    (field : Option ℤ) (dh : Bool) (with_nn : Bool) : Sum ResClip (ResClip × ResClip) :=
  -- Using nnedi3 by default
  let deint : Option Deint :=
    match nnedi3, eedi3 with
    | none, none => some (get_nnedi3 false)
    | none, some e => some e
    | some n, none => some n
    | some _, some _ => none
  -- Adjust output cropping args
  let field : ℤ := field.getD (if dh then (if clip.sy > 0 then 1 else 0) else 1)
  let sh : ℚ := if dh then clip.sh * 2 else clip.sh
  let sy : ℚ := if dh then clip.sy * 2 + 1/2 - (field : ℚ) else clip.sy
  match deint, nnedi3, eedi3 with
  | none, some n, some e => -- corresponding to nnedi3 + eedi3
    let ip_nn := n ⟨clip.clip, field, dh, none, none⟩
    let ip_ee := e ⟨clip.clip, field, dh, some 3, some ip_nn⟩
    if with_nn then
      .inr (clip.copy (some ip_ee) none (some sy) none (some sh),
            clip.copy (some ip_nn) none (some sy) none (some sh))
    else
      .inl (clip.copy (some ip_ee) none (some sy) none (some sh))
  | some d, _, _ =>
    .inl (clip.copy (some (d ⟨clip.clip, field, dh, none, none⟩)) none (some sy) none (some sh))
  | none, _, _ => .inl clip -- unreachable: deint is none only when both filters are given

/-- Model of `ee2x` from `resample.py`: two-pass doubling where the nnedi3 result
of the second pass serves as the `vcheck` reference of the second
edge-directed interpolation; requires both filters. -/
def ee2x (clip : ResClip) (nnedi3 eedi3 : Option Deint) (with_nn : Bool) :
    Except String (Sum ResClip (ResClip × ResClip)) :=
  match nnedi3, eedi3 with
  | some nf, some ef =>
    -- First interpolation
    let r1 := interpolate clip (some nf) (some ef) none true true
    let nn_up1 := (firstRes r1).transpose
    let ee_up1 := (sndRes r1).transpose
    -- Second interpolation
    let nn_up2 := firstRes (interpolate nn_up1 (some nf) none (some 1) true false)
    let ee_up2 := nn_up2.copy (some (ef ⟨ee_up1.clip, 1, true, some 3, some nn_up2.clip⟩))
      none none none none
    let ee_up2 := ee_up2.transpose
    -- Output
    if with_nn then .ok (.inr (ee_up2, nn_up2.transpose))
    else .ok (.inl ee_up2)
  | _, _ => .error "ee2x: both nnedi3 and eedi3 must be available"

/-- The supported positive repair modes (`mode_list` in `misc.py`). -/
def mode_list : List ℤ := [1, 2, 3, 4, 11, 12, 13, 14]

/-- Model of `repair` from `misc.py`: the clamp filter.  Mode 0 returns the base
clip unchanged; a negative mode swaps the two clips and recurses with the
positive mode; other modes build an `akarin.Expr` program over the two
clips (with optional sub-pixel neighbor blending). -/
def repair (clip repairclip : VNode) (mode : ℤ) (pixel : Option ℚ) : Except String VNode :=
  if mode = 0 then .ok clip
  else if _hneg : mode < 0 then repair repairclip clip (-mode) pixel
  else if mode ∈ mode_list then
    let sp_px : Except String (Bool × ℚ) :=
      match pixel with
      | none => .ok (false, 0)
      | some px =>
        let px := |px|
        if px > 1 then .error "repair: Shifting more than 1 pixel is not supported."
        else .ok (px ≠ 1, px)
    match sp_px with
    | .error e => .error e
    | .ok (sp, p) =>
      let pixels : String :=
        if sp then
          let q := 1 - p
          let pp := p * p
          let qq := q * q
          let pq := p * q
          let plt := "y[-1,-1] " ++ toString pp ++ " * y[-1,0] " ++ toString pq ++
            " * + y[0,-1] " ++ toString pq ++ " * + y " ++ toString qq ++ " * + "
          let prt := "y[1,-1] " ++ toString pp ++ " * y[1,0] " ++ toString pq ++
            " * + y[0,-1] " ++ toString pq ++ " * + y " ++ toString qq ++ " * + "
          let plb := "y[-1,1] " ++ toString pp ++ " * y[-1,0] " ++ toString pq ++
            " * + y[0,1] " ++ toString pq ++ " * + y " ++ toString qq ++ " * + "
          let prb := "y[1,1] " ++ toString pp ++ " * y[1,0] " ++ toString pq ++
            " * + y[0,1] " ++ toString pq ++ " * + y " ++ toString qq ++ " * + "
          let pl := "y[-1,0] " ++ toString p ++ " * y " ++ toString q ++ " * + "
          let pr := "y[1,0] " ++ toString p ++ " * y " ++ toString q ++ " * + "
          let pt := "y[0,-1] " ++ toString p ++ " * y " ++ toString q ++ " * + "
          let pb := "y[0,1] " ++ toString p ++ " * y " ++ toString q ++ " * + "
          plt ++ prt ++ plb ++ prb ++ pl ++ pr ++ pt ++ pb
        else
          "y[-1,-1] y[0,-1] y[1,-1] y[-1,0] y[1,0] y[-1,1] y[0,1] y[1,1] "
      let expr : String :=
        if mode ≤ 4 then
          "y sort9 dup" ++ toString (9 - mode) ++ " max! dup" ++ toString (mode - 1) ++
            " min! drop9 x min@ max@ clamp"
        else
          let mode := mode - 10
          "sort8 dup" ++ toString (8 - mode) ++ " max! dup" ++ toString (mode - 1) ++
            " min! drop8 y min@ min ymin! y max@ max ymax! x ymin@ ymax@ clamp"
      .ok (VNode.exprNode clip repairclip (pixels ++ expr))
  else .error "repair: only modes 1-4 and 11-14 are implemented."
termination_by (if mode < 0 then 1 else 0)
decreasing_by
  have h : ¬(-mode < 0) := by omega
  simp [_hneg, h]

/-! Theorems settling the claims about the embedded operations. -/

theorem get_scaler_eq_get_descaler (k : String) (b c : ℚ) (taps : ℤ) :
    get_scaler k b c taps = get_descaler k b c taps := rfl

/-- Claim C5: for every input, `bdescale` with all four border counts zero
produces the same output buffer (and, with `with_diff`, the same diff
buffer) as `descale` with the same image, dimensions, kernel, parameters
and source rectangle. -/
theorem bdescale_zero_border_eq (clip : ResClip) (width height : ℤ) (kernel : String)
    (b c : ℚ) (taps : ℤ) (src_left src_top : ℚ) (src_width src_height : Option ℚ)
    (color : Option ℚ) (with_diff : Bool) :
    bdescale clip width height kernel b c taps src_left src_top src_width src_height
      0 0 0 0 color with_diff =
    Except.map (Sum.map ResClip.clip (fun p => (p.1.clip, p.2.clip)))
      (descale clip width height kernel b c taps src_left src_top src_width src_height with_diff) := by
  unfold bdescale
  rcases hd : descale clip width height kernel b c taps src_left src_top src_width
      src_height with_diff with e | r
  · simp [Except.map]
  · rcases r with d | ⟨dn, df⟩ <;> simp [Except.map, Sum.map]

/-- Claim C4: in `bdescale` the integer extra source-space borders are the
clamped ceilings of the documented quantities (with the fractional part of
a clamped left/top absorbed into the revised offset and no fractional
carry on the right/bottom), the inner descale is invoked with the adjusted
rectangle, and no computed border count is negative. -/
theorem bdescale_args_spec (yw yh w h : ℤ) (sl st sw sh : ℚ) (l r t b : ℤ) :
    (bdescale_args yw yh w h sl st sw sh l r t b).2.left = max ⌈l * (sw / (yw : ℚ)) - sl⌉ 0 ∧
    (bdescale_args yw yh w h sl st sw sh l r t b).2.right = max ⌈r * (sw / (yw : ℚ)) + sl + sw - w⌉ 0 ∧
    (bdescale_args yw yh w h sl st sw sh l r t b).2.top = max ⌈t * (sh / (yh : ℚ)) - st⌉ 0 ∧
    (bdescale_args yw yh w h sl st sw sh l r t b).2.bottom = max ⌈b * (sh / (yh : ℚ)) + st + sh - h⌉ 0 ∧
    0 ≤ (bdescale_args yw yh w h sl st sw sh l r t b).2.left ∧
    0 ≤ (bdescale_args yw yh w h sl st sw sh l r t b).2.right ∧
    0 ≤ (bdescale_args yw yh w h sl st sw sh l r t b).2.top ∧
    0 ≤ (bdescale_args yw yh w h sl st sw sh l r t b).2.bottom ∧
    (bdescale_args yw yh w h sl st sw sh l r t b).1.src_left
      = (bdescale_args yw yh w h sl st sw sh l r t b).2.left - (if ⌈l * (sw / (yw : ℚ)) - sl⌉ < 0 then l * (sw / (yw : ℚ)) - sl - ⌈l * (sw / (yw : ℚ)) - sl⌉ else l * (sw / (yw : ℚ)) - sl) ∧
    (bdescale_args yw yh w h sl st sw sh l r t b).1.src_width
      = (if ⌈l * (sw / (yw : ℚ)) - sl⌉ < 0 then l * (sw / (yw : ℚ)) - sl - ⌈l * (sw / (yw : ℚ)) - sl⌉ else l * (sw / (yw : ℚ)) - sl) + (r * (sw / (yw : ℚ)) + sl + sw - w) + w ∧
    (bdescale_args yw yh w h sl st sw sh l r t b).1.width
      = (bdescale_args yw yh w h sl st sw sh l r t b).2.left + (bdescale_args yw yh w h sl st sw sh l r t b).2.right + w ∧
    (bdescale_args yw yh w h sl st sw sh l r t b).1.src_top
      = (bdescale_args yw yh w h sl st sw sh l r t b).2.top - (if ⌈t * (sh / (yh : ℚ)) - st⌉ < 0 then t * (sh / (yh : ℚ)) - st - ⌈t * (sh / (yh : ℚ)) - st⌉ else t * (sh / (yh : ℚ)) - st) ∧
    (bdescale_args yw yh w h sl st sw sh l r t b).1.src_height
      = (if ⌈t * (sh / (yh : ℚ)) - st⌉ < 0 then t * (sh / (yh : ℚ)) - st - ⌈t * (sh / (yh : ℚ)) - st⌉ else t * (sh / (yh : ℚ)) - st) + (b * (sh / (yh : ℚ)) + st + sh - h) + h ∧
    (bdescale_args yw yh w h sl st sw sh l r t b).1.height
      = (bdescale_args yw yh w h sl st sw sh l r t b).2.top + (bdescale_args yw yh w h sl st sw sh l r t b).2.bottom + h := by
  simp only [bdescale_args]
  split_ifs <;>
    refine ⟨?_, ?_, ?_, ?_, ?_, ?_, ?_, ?_, ?_, ?_, ?_, ?_, ?_, ?_⟩ <;>
    first
      | omega
      | (push_cast; ring)
      | push_cast

/-- Claim C1: for every successful `descale` call, the window of the
returned downscaled result is projected algebraically from the input
window: with `ratio_w = src_width / clip.width` (the buffer's pixel
width, not the window width), `dst_sx = src_left + ratio_w * sx` and
`dst_sw = ratio_w * sw`, and symmetrically for the vertical axis. -/
theorem descale_window_projection (clip : ResClip) (width height : ℤ) (kernel : String)
    (b c : ℚ) (taps : ℤ) (src_left src_top : ℚ) (src_width src_height : Option ℚ)
    (with_diff : Bool)
    (hok : (descale clip width height kernel b c taps src_left src_top src_width src_height
      with_diff).isOk = true) :
    (firstRes (okRes (descale clip width height kernel b c taps src_left src_top src_width
        src_height with_diff))).sx
      = src_left + src_width.getD (width : ℚ) / (clip.clip.width : ℚ) * clip.sx ∧
    (firstRes (okRes (descale clip width height kernel b c taps src_left src_top src_width
        src_height with_diff))).sw
      = src_width.getD (width : ℚ) / (clip.clip.width : ℚ) * clip.sw ∧
    (firstRes (okRes (descale clip width height kernel b c taps src_left src_top src_width
        src_height with_diff))).sy
      = src_top + src_height.getD (height : ℚ) / (clip.clip.height : ℚ) * clip.sy ∧
    (firstRes (okRes (descale clip width height kernel b c taps src_left src_top src_width
        src_height with_diff))).sh
      = src_height.getD (height : ℚ) / (clip.clip.height : ℚ) * clip.sh := by
  rcases hG : get_descaler (normalize_kernel kernel) b c taps with e | dk
  · simp [descale, hG, Except.isOk, Except.toBool] at hok
  · cases with_diff
    · simp [descale, hG, okRes, firstRes]
    · by_cases hb : clip.clip.bits = 32 <;>
        simp [descale, hG, get_scaler_eq_get_descaler, okRes, firstRes, hb]

/-- Witness for C1 at a concrete input. -/
theorem descale_window_projection_witness :
    ((descale ⟨VNode.src 0 16 16 32, 1, 2, 16, 16⟩ 12 12 "bicubic" 0 (1/2) 3 3 4 none none
      false).isOk = true) ∧
    ((firstRes (okRes (descale ⟨VNode.src 0 16 16 32, 1, 2, 16, 16⟩ 12 12 "bicubic" 0 (1/2) 3
        3 4 none none false))).sx
      = 3 + (none : Option ℚ).getD ((12 : ℤ) : ℚ) / (((VNode.src 0 16 16 32).width : ℤ) : ℚ) * 1 ∧
    (firstRes (okRes (descale ⟨VNode.src 0 16 16 32, 1, 2, 16, 16⟩ 12 12 "bicubic" 0 (1/2) 3
        3 4 none none false))).sw
      = (none : Option ℚ).getD ((12 : ℤ) : ℚ) / (((VNode.src 0 16 16 32).width : ℤ) : ℚ) * 16 ∧
    (firstRes (okRes (descale ⟨VNode.src 0 16 16 32, 1, 2, 16, 16⟩ 12 12 "bicubic" 0 (1/2) 3
        3 4 none none false))).sy
      = 4 + (none : Option ℚ).getD ((12 : ℤ) : ℚ) / (((VNode.src 0 16 16 32).height : ℤ) : ℚ) * 2 ∧
    (firstRes (okRes (descale ⟨VNode.src 0 16 16 32, 1, 2, 16, 16⟩ 12 12 "bicubic" 0 (1/2) 3
        3 4 none none false))).sh
      = (none : Option ℚ).getD ((12 : ℤ) : ℚ) / (((VNode.src 0 16 16 32).height : ℤ) : ℚ) * 16) :=
  ⟨rfl, descale_window_projection ⟨VNode.src 0 16 16 32, 1, 2, 16, 16⟩ 12 12 "bicubic" 0 (1/2) 3
    3 4 none none false rfl⟩

/-- Counterexample to C2 as stated: a call with the default source
rectangle and input offsets `sx = sy = 0`, but whose input window extent
(`sw = sh = 50`) differs from the buffer's pixel dimensions (100x100):
the returned window extent is `5`, not the declared target width `10`. -/
theorem descale_default_window_cex :
    (descale ⟨VNode.src 0 100 100 32, 0, 0, 50, 50⟩ 10 10 "bicubic" 0 (1/2) 3 0 0 none none
        false).toOption.map (fun res => (firstRes res).sw) = some 5 ∧
    ¬ ((descale ⟨VNode.src 0 100 100 32, 0, 0, 50, 50⟩ 10 10 "bicubic" 0 (1/2) 3 0 0 none none
        false).toOption.map (fun res => (firstRes res).sw) = some ((10 : ℤ) : ℚ)) := by
  have h : (descale ⟨VNode.src 0 100 100 32, 0, 0, 50, 50⟩ 10 10 "bicubic" 0 (1/2) 3 0 0
      none none false).toOption.map (fun res => (firstRes res).sw)
      = some (((10 : ℤ) : ℚ) / ((100 : ℤ) : ℚ) * 50) := rfl
  rw [h]
  constructor
  · norm_num
  · norm_num

/-- Claim C2 (amended): for every `descale` call with the default source
rectangle, input window offset `(0, 0)` AND input window extent equal to
the buffer's (nonzero) pixel dimensions, the output window offset is
exactly `(0, 0)` and the output extent is the declared target
`(width, height)`. -/
theorem descale_default_window_full (clip : ResClip) (width height : ℤ) (kernel : String)
    (b c : ℚ) (taps : ℤ) (with_diff : Bool)
    (hsx : clip.sx = 0) (hsy : clip.sy = 0)
    (hsw : clip.sw = (clip.clip.width : ℚ)) (hsh : clip.sh = (clip.clip.height : ℚ))
    (hw : clip.clip.width ≠ 0) (hh : clip.clip.height ≠ 0)
    (hok : (descale clip width height kernel b c taps 0 0 none none with_diff).isOk = true) :
    (firstRes (okRes (descale clip width height kernel b c taps 0 0 none none
        with_diff))).sx = 0 ∧
    (firstRes (okRes (descale clip width height kernel b c taps 0 0 none none
        with_diff))).sy = 0 ∧
    (firstRes (okRes (descale clip width height kernel b c taps 0 0 none none
        with_diff))).sw = (width : ℚ) ∧
    (firstRes (okRes (descale clip width height kernel b c taps 0 0 none none
        with_diff))).sh = (height : ℚ) := by
  have hW : ((clip.clip.width : ℤ) : ℚ) ≠ 0 := Int.cast_ne_zero.mpr hw
  have hH : ((clip.clip.height : ℤ) : ℚ) ≠ 0 := Int.cast_ne_zero.mpr hh
  rcases hG : get_descaler (normalize_kernel kernel) b c taps with e | dk
  · simp [descale, hG, Except.isOk, Except.toBool] at hok
  · cases with_diff
    · simp [descale, hG, okRes, firstRes, hsx, hsy, hsw, hsh, div_mul_cancel₀, hW, hH]
    · by_cases hb : clip.clip.bits = 32 <;>
        simp [descale, hG, get_scaler_eq_get_descaler, okRes, firstRes, hsx, hsy, hsw, hsh,
          div_mul_cancel₀, hW, hH, hb]

/-- Witness for the amended C2 at a concrete input. -/
theorem descale_default_window_full_witness :
    ((VNode.src 0 100 100 32).width ≠ 0) ∧ ((VNode.src 0 100 100 32).height ≠ 0) ∧
    ((descale ⟨VNode.src 0 100 100 32, 0, 0, 100, 100⟩ 10 20 "bicubic" 0 (1/2) 3 0 0 none none
      false).isOk = true) ∧
    ((firstRes (okRes (descale ⟨VNode.src 0 100 100 32, 0, 0, 100, 100⟩ 10 20 "bicubic" 0 (1/2)
        3 0 0 none none false))).sx = 0 ∧
    (firstRes (okRes (descale ⟨VNode.src 0 100 100 32, 0, 0, 100, 100⟩ 10 20 "bicubic" 0 (1/2)
        3 0 0 none none false))).sy = 0 ∧
    (firstRes (okRes (descale ⟨VNode.src 0 100 100 32, 0, 0, 100, 100⟩ 10 20 "bicubic" 0 (1/2)
        3 0 0 none none false))).sw = ((10 : ℤ) : ℚ) ∧
    (firstRes (okRes (descale ⟨VNode.src 0 100 100 32, 0, 0, 100, 100⟩ 10 20 "bicubic" 0 (1/2)
        3 0 0 none none false))).sh = ((20 : ℤ) : ℚ)) :=
  ⟨by decide, by decide, rfl,
    descale_default_window_full ⟨VNode.src 0 100 100 32, 0, 0, 100, 100⟩ 10 20 "bicubic" 0 (1/2)
      3 false rfl rfl (by norm_num [VNode.width]) (by norm_num [VNode.height])
      (by decide) (by decide) rfl⟩

/-- Claim C3: every successful `descale` call with `with_diff` returns
exactly two windowed images: the first the `width x height` downscaled
plane carrying the projected window, the second a diff plane at the
input's resolution whose window fields equal those of the input image. -/
theorem descale_with_diff_shapes (clip : ResClip) (width height : ℤ) (kernel : String)
    (b c : ℚ) (taps : ℤ) (src_left src_top : ℚ) (src_width src_height : Option ℚ)
    (hok : (descale clip width height kernel b c taps src_left src_top src_width src_height
      true).isOk = true) :
    isDiffPair (okRes (descale clip width height kernel b c taps src_left src_top src_width
        src_height true)) = true ∧
    (firstRes (okRes (descale clip width height kernel b c taps src_left src_top src_width
        src_height true))).clip.width = width ∧
    (firstRes (okRes (descale clip width height kernel b c taps src_left src_top src_width
        src_height true))).clip.height = height ∧
    (firstRes (okRes (descale clip width height kernel b c taps src_left src_top src_width
        src_height true))).sx
      = src_left + src_width.getD (width : ℚ) / (clip.clip.width : ℚ) * clip.sx ∧
    (firstRes (okRes (descale clip width height kernel b c taps src_left src_top src_width
        src_height true))).sy
      = src_top + src_height.getD (height : ℚ) / (clip.clip.height : ℚ) * clip.sy ∧
    (sndRes (okRes (descale clip width height kernel b c taps src_left src_top src_width
        src_height true))).clip.width = clip.clip.width ∧
    (sndRes (okRes (descale clip width height kernel b c taps src_left src_top src_width
        src_height true))).clip.height = clip.clip.height ∧
    (sndRes (okRes (descale clip width height kernel b c taps src_left src_top src_width
        src_height true))).sx = clip.sx ∧
    (sndRes (okRes (descale clip width height kernel b c taps src_left src_top src_width
        src_height true))).sy = clip.sy ∧
    (sndRes (okRes (descale clip width height kernel b c taps src_left src_top src_width
        src_height true))).sw = clip.sw ∧
    (sndRes (okRes (descale clip width height kernel b c taps src_left src_top src_width
        src_height true))).sh = clip.sh := by
  rcases hG : get_descaler (normalize_kernel kernel) b c taps with e | dk
  · simp [descale, hG, Except.isOk, Except.toBool] at hok
  · by_cases hb : clip.clip.bits = 32 <;>
      simp [descale, hG, get_scaler_eq_get_descaler, okRes, firstRes, sndRes, isDiffPair, hb,
        VNode.width, VNode.height]

/-- Witness for C3 at a concrete input. -/
theorem descale_with_diff_shapes_witness :
    ((descale ⟨VNode.src 0 32 32 8, 0, 0, 32, 32⟩ 24 24 "bicubic" 0 (1/2) 3 0 0 none none
      true).isOk = true) ∧
    (isDiffPair (okRes (descale ⟨VNode.src 0 32 32 8, 0, 0, 32, 32⟩ 24 24 "bicubic" 0 (1/2) 3
        0 0 none none true)) = true ∧
    (firstRes (okRes (descale ⟨VNode.src 0 32 32 8, 0, 0, 32, 32⟩ 24 24 "bicubic" 0 (1/2) 3
        0 0 none none true))).clip.width = 24 ∧
    (firstRes (okRes (descale ⟨VNode.src 0 32 32 8, 0, 0, 32, 32⟩ 24 24 "bicubic" 0 (1/2) 3
        0 0 none none true))).clip.height = 24 ∧
    (firstRes (okRes (descale ⟨VNode.src 0 32 32 8, 0, 0, 32, 32⟩ 24 24 "bicubic" 0 (1/2) 3
        0 0 none none true))).sx
      = 0 + (none : Option ℚ).getD ((24 : ℤ) : ℚ) / (((VNode.src 0 32 32 8).width : ℤ) : ℚ) * 0 ∧
    (firstRes (okRes (descale ⟨VNode.src 0 32 32 8, 0, 0, 32, 32⟩ 24 24 "bicubic" 0 (1/2) 3
        0 0 none none true))).sy
      = 0 + (none : Option ℚ).getD ((24 : ℤ) : ℚ) / (((VNode.src 0 32 32 8).height : ℤ) : ℚ) * 0 ∧
    (sndRes (okRes (descale ⟨VNode.src 0 32 32 8, 0, 0, 32, 32⟩ 24 24 "bicubic" 0 (1/2) 3
        0 0 none none true))).clip.width = (VNode.src 0 32 32 8).width ∧
    (sndRes (okRes (descale ⟨VNode.src 0 32 32 8, 0, 0, 32, 32⟩ 24 24 "bicubic" 0 (1/2) 3
        0 0 none none true))).clip.height = (VNode.src 0 32 32 8).height ∧
    (sndRes (okRes (descale ⟨VNode.src 0 32 32 8, 0, 0, 32, 32⟩ 24 24 "bicubic" 0 (1/2) 3
        0 0 none none true))).sx = 0 ∧
    (sndRes (okRes (descale ⟨VNode.src 0 32 32 8, 0, 0, 32, 32⟩ 24 24 "bicubic" 0 (1/2) 3
        0 0 none none true))).sy = 0 ∧
    (sndRes (okRes (descale ⟨VNode.src 0 32 32 8, 0, 0, 32, 32⟩ 24 24 "bicubic" 0 (1/2) 3
        0 0 none none true))).sw = 32 ∧
    (sndRes (okRes (descale ⟨VNode.src 0 32 32 8, 0, 0, 32, 32⟩ 24 24 "bicubic" 0 (1/2) 3
        0 0 none none true))).sh = 32) :=
  ⟨rfl, descale_with_diff_shapes ⟨VNode.src 0 32 32 8, 0, 0, 32, 32⟩ 24 24 "bicubic" 0 (1/2) 3
    0 0 none none rfl⟩

/-- Claim C10: for an input whose depth is not 32 bits, `descale` with
`with_diff` returns both planes at 32-bit depth (the downscaled plane is
not converted back to the input depth on this path), while `descale`
without `with_diff` returns the downscaled plane converted back to the
input's original depth. -/
theorem descale_depth_policy (clip : ResClip) (width height : ℤ) (kernel : String)
    (b c : ℚ) (taps : ℤ) (src_left src_top : ℚ) (src_width src_height : Option ℚ)
    (hbits : clip.clip.bits ≠ 32)
    (hok1 : (descale clip width height kernel b c taps src_left src_top src_width src_height
      true).isOk = true) :
    (firstRes (okRes (descale clip width height kernel b c taps src_left src_top src_width
        src_height true))).clip.bits = 32 ∧
    (sndRes (okRes (descale clip width height kernel b c taps src_left src_top src_width
        src_height true))).clip.bits = 32 ∧
    (firstRes (okRes (descale clip width height kernel b c taps src_left src_top src_width
        src_height false))).clip.bits = clip.clip.bits := by
  rcases hG : get_descaler (normalize_kernel kernel) b c taps with e | dk
  · simp [descale, hG, Except.isOk, Except.toBool] at hok1
  · simp [descale, hG, get_scaler_eq_get_descaler, okRes, firstRes, sndRes, hbits, VNode.bits]

/-- Witness for C10 at a concrete input. -/
theorem descale_depth_policy_witness :
    ((VNode.src 0 32 32 8).bits ≠ 32) ∧
    ((descale ⟨VNode.src 0 32 32 8, 0, 0, 32, 32⟩ 24 24 "bicubic" 0 (1/2) 3 0 0 none none
      true).isOk = true) ∧
    ((firstRes (okRes (descale ⟨VNode.src 0 32 32 8, 0, 0, 32, 32⟩ 24 24 "bicubic" 0 (1/2) 3
        0 0 none none true))).clip.bits = 32 ∧
    (sndRes (okRes (descale ⟨VNode.src 0 32 32 8, 0, 0, 32, 32⟩ 24 24 "bicubic" 0 (1/2) 3
        0 0 none none true))).clip.bits = 32 ∧
    (firstRes (okRes (descale ⟨VNode.src 0 32 32 8, 0, 0, 32, 32⟩ 24 24 "bicubic" 0 (1/2) 3
        0 0 none none false))).clip.bits = (⟨VNode.src 0 32 32 8, (0:ℚ), 0, 32, 32⟩ : ResClip).clip.bits) :=
  ⟨by decide, rfl,
    descale_depth_policy ⟨VNode.src 0 32 32 8, 0, 0, 32, 32⟩ 24 24 "bicubic" 0 (1/2) 3
      0 0 none none (by decide) rfl⟩

theorem ceil_mul_base (s : ℚ) (k : ℤ) (hk : 0 < k) :
    k ∣ ⌈s / (k : ℚ)⌉ * k ∧ s ≤ ((⌈s / (k : ℚ)⌉ * k : ℤ) : ℚ) ∧
    ∀ m : ℤ, k ∣ m → s ≤ (m : ℚ) → ⌈s / (k : ℚ)⌉ * k ≤ m := by
  have hk' : (0 : ℚ) < (k : ℚ) := by exact_mod_cast hk
  refine ⟨dvd_mul_left k _, ?_, ?_⟩
  · have h := Int.le_ceil (s / (k : ℚ))
    rw [div_le_iff₀ hk'] at h
    push_cast
    linarith
  · intro m hm hsm
    obtain ⟨j, rfl⟩ := hm
    have hj : s / (k : ℚ) ≤ (j : ℚ) := by
      rw [div_le_iff₀ hk']
      push_cast at hsm ⊢
      linarith
    have h2 : ⌈s / (k : ℚ)⌉ ≤ j := Int.ceil_le.mpr hj
    calc ⌈s / (k : ℚ)⌉ * k ≤ j * k := mul_le_mul_of_nonneg_right h2 hk.le
      _ = k * j := mul_comm _ _

theorem strip_facts (s : ℚ) (bw : ℤ) (hs : s ≤ (bw : ℚ)) :
    bw - 2 * ⌊((bw : ℚ) - s) / 2⌋ ≤ bw ∧
    0 ≤ ((bw - 2 * ⌊((bw : ℚ) - s) / 2⌋ : ℤ) : ℚ) - s ∧
    ((bw - 2 * ⌊((bw : ℚ) - s) / 2⌋ : ℤ) : ℚ) - s < 2 := by
  have ht0 : 0 ≤ (bw : ℚ) - s := by linarith
  have hf0 : 0 ≤ ⌊((bw : ℚ) - s) / 2⌋ := Int.floor_nonneg.mpr (by positivity)
  have hfl : ((⌊((bw : ℚ) - s) / 2⌋ : ℤ) : ℚ) ≤ ((bw : ℚ) - s) / 2 := Int.floor_le _
  have hfu : ((bw : ℚ) - s) / 2 < ⌊((bw : ℚ) - s) / 2⌋ + 1 := Int.lt_floor_add_one _
  refine ⟨by omega, ?_, ?_⟩ <;> push_cast <;> linarith

/-- Claim C6 (amended): for `fdescale` with defaulted base dimensions and
a ratio in (0, 1), `base_width` is the least multiple of 16 at or above
`src_width` (and `base_height` the least multiple of 18 at or above
`src_height`), the final `width` is at most `base_width`, and `width`
exceeds `src_width` by a nonnegative amount strictly less than 2 pixels
(not at most 1, as originally stated); symmetrically for the height. -/
theorem fdescale_dims_parity (yw yh : ℤ) ( ratio : ℚ) (_h0 : 0 < ratio ) (_h1 : ratio < 1) :
    16 ∣ (fdescale_dims yw yh ratio none none).base_width ∧
    18 ∣ (fdescale_dims yw yh ratio none none).base_height ∧
    (fdescale_dims yw yh ratio none none).src_width
      ≤ ((fdescale_dims yw yh ratio none none).base_width : ℚ) ∧
    (fdescale_dims yw yh ratio none none).src_height
      ≤ ((fdescale_dims yw yh ratio none none).base_height : ℚ) ∧
    (∀ m : ℤ, 16 ∣ m → (fdescale_dims yw yh ratio none none).src_width ≤ (m : ℚ) →
      (fdescale_dims yw yh ratio none none).base_width ≤ m) ∧
    (∀ m : ℤ, 18 ∣ m → (fdescale_dims yw yh ratio none none).src_height ≤ (m : ℚ) →
      (fdescale_dims yw yh ratio none none).base_height ≤ m) ∧
    (fdescale_dims yw yh ratio none none).width
      ≤ (fdescale_dims yw yh ratio none none).base_width ∧
    (fdescale_dims yw yh ratio none none).height
      ≤ (fdescale_dims yw yh ratio none none).base_height ∧
    0 ≤ ((fdescale_dims yw yh ratio none none).width : ℚ)
      - (fdescale_dims yw yh ratio none none).src_width ∧
    ((fdescale_dims yw yh ratio none none).width : ℚ)
      - (fdescale_dims yw yh ratio none none).src_width < 2 ∧
    0 ≤ ((fdescale_dims yw yh ratio none none).height : ℚ)
      - (fdescale_dims yw yh ratio none none).src_height ∧
    ((fdescale_dims yw yh ratio none none).height : ℚ)
      - (fdescale_dims yw yh ratio none none).src_height < 2 := by
  have W := ceil_mul_base ((yw : ℚ) * ratio ) 16 (by norm_num)
  have H := ceil_mul_base ((yh : ℚ) * ratio ) 18 (by norm_num)
  have SW := strip_facts ((yw : ℚ) * ratio ) (⌈(yw : ℚ) * ratio / 16⌉ * 16) W.2.1
  have SH := strip_facts ((yh : ℚ) * ratio ) (⌈(yh : ℚ) * ratio / 18⌉ * 18) H.2.1
  simp only [fdescale_dims, Option.getD_none]
  exact ⟨W.1, H.1, W.2.1, H.2.1, W.2.2, H.2.2, SW.1, SH.1, SW.2.1, SW.2.2, SH.2.1, SH.2.2⟩

/-- Counterexample to C6 as stated: at a 29-pixel-wide luma plane and
ratio 1/2, `src_width = 14.5`, the default `base_width` is 16 and the
final `width` is 16, which differs from `src_width` by 1.5 > 1 pixel. -/
theorem fdescale_dims_cex :
    ((fdescale_dims 29 36 (1/2) none none).width : ℚ)
      - (fdescale_dims 29 36 (1/2) none none).src_width = 3/2 ∧
    ¬ (|((fdescale_dims 29 36 (1/2) none none).width : ℚ)
      - (fdescale_dims 29 36 (1/2) none none).src_width| ≤ 1) := by
  have hc : ⌈((29 : ℤ) : ℚ) * (1/2) / 16⌉ = 1 := by
    rw [Int.ceil_eq_iff]
    norm_num
  have hf : ⌊((((⌈((29 : ℤ) : ℚ) * (1/2) / 16⌉ * 16 : ℤ)) : ℚ) - ((29 : ℤ) : ℚ) * (1/2)) / 2⌋ = 0 := by
    rw [hc]
    rw [Int.floor_eq_iff]
    norm_num
  constructor
  · simp only [fdescale_dims, Option.getD_none, hc, hf]
    push_cast
    norm_num
  · simp only [fdescale_dims, Option.getD_none, hc, hf]
    push_cast
    intro h
    rw [abs_le] at h
    norm_num at h

/-- Witness for the amended C6 at a concrete input. -/
theorem fdescale_dims_parity_witness :
    (0 < (1/2 : ℚ)) ∧ ((1/2 : ℚ) < 1) ∧
    (16 ∣ (fdescale_dims 29 36 (1/2) none none).base_width ∧
    18 ∣ (fdescale_dims 29 36 (1/2) none none).base_height ∧
    (fdescale_dims 29 36 (1/2) none none).src_width
      ≤ ((fdescale_dims 29 36 (1/2) none none).base_width : ℚ) ∧
    (fdescale_dims 29 36 (1/2) none none).src_height
      ≤ ((fdescale_dims 29 36 (1/2) none none).base_height : ℚ) ∧
    (∀ m : ℤ, 16 ∣ m → (fdescale_dims 29 36 (1/2) none none).src_width ≤ (m : ℚ) →
      (fdescale_dims 29 36 (1/2) none none).base_width ≤ m) ∧
    (∀ m : ℤ, 18 ∣ m → (fdescale_dims 29 36 (1/2) none none).src_height ≤ (m : ℚ) →
      (fdescale_dims 29 36 (1/2) none none).base_height ≤ m) ∧
    (fdescale_dims 29 36 (1/2) none none).width
      ≤ (fdescale_dims 29 36 (1/2) none none).base_width ∧
    (fdescale_dims 29 36 (1/2) none none).height
      ≤ (fdescale_dims 29 36 (1/2) none none).base_height ∧
    0 ≤ ((fdescale_dims 29 36 (1/2) none none).width : ℚ)
      - (fdescale_dims 29 36 (1/2) none none).src_width ∧
    ((fdescale_dims 29 36 (1/2) none none).width : ℚ)
      - (fdescale_dims 29 36 (1/2) none none).src_width < 2 ∧
    0 ≤ ((fdescale_dims 29 36 (1/2) none none).height : ℚ)
      - (fdescale_dims 29 36 (1/2) none none).src_height ∧
    ((fdescale_dims 29 36 (1/2) none none).height : ℚ)
      - (fdescale_dims 29 36 (1/2) none none).src_height < 2) :=
  ⟨by norm_num, by norm_num, fdescale_dims_parity 29 36 (1/2) (by norm_num) (by norm_num)⟩

/-- Claim C7: the doubling interpolator with height doubling enabled and
a given field parity returns windows with `sh = 2 * sh` and
`sy = 2 * sy + 1/2 - field`; with height doubling disabled, `sh` and `sy`
are returned unchanged (for every returned image). -/
theorem interpolate_window_update (clip : ResClip) (nnedi3 eedi3 : Option Deint)
    (f : ℤ) (field : Option ℤ) (with_nn : Bool) :
    ((firstRes (interpolate clip nnedi3 eedi3 (some f) true with_nn)).sh = 2 * clip.sh ∧
     (firstRes (interpolate clip nnedi3 eedi3 (some f) true with_nn)).sy
        = 2 * clip.sy + 1/2 - (f : ℚ) ∧
     (sndRes (interpolate clip nnedi3 eedi3 (some f) true with_nn)).sh = 2 * clip.sh ∧
     (sndRes (interpolate clip nnedi3 eedi3 (some f) true with_nn)).sy
        = 2 * clip.sy + 1/2 - (f : ℚ)) ∧
    ((firstRes (interpolate clip nnedi3 eedi3 field false with_nn)).sh = clip.sh ∧
     (firstRes (interpolate clip nnedi3 eedi3 field false with_nn)).sy = clip.sy ∧
     (sndRes (interpolate clip nnedi3 eedi3 field false with_nn)).sh = clip.sh ∧
     (sndRes (interpolate clip nnedi3 eedi3 field false with_nn)).sy = clip.sy) := by
  refine ⟨⟨?_, ?_, ?_, ?_⟩, ⟨?_, ?_, ?_, ?_⟩⟩ <;>
    rcases nnedi3 with _ | n <;> rcases eedi3 with _ | e <;> cases with_nn <;>
    simp [interpolate, ResClip.copy, firstRes, sndRes] <;> ring

/-- Claim C8: `repair` with mode 0 returns the base plane unchanged, and
for every supported positive mode `m`, `repair` with mode `-m` equals
`repair` with the two planes swapped and mode `m`. -/
theorem repair_identity_swap (c1 c2 : VNode) (p : Option ℚ) (m : ℤ) (hm : m ∈ mode_list) :
    repair c1 c2 0 p = .ok c1 ∧ repair c1 c2 (-m) p = repair c2 c1 m p := by
  have hpos : 0 < m := by
    simp [mode_list] at hm
    rcases hm with rfl | rfl | rfl | rfl | rfl | rfl | rfl | rfl <;> norm_num
  constructor
  · rw [repair.eq_def]
    norm_num
  · have h1 : ¬(-m = 0) := by omega
    have h2 : -m < 0 := by omega
    conv_lhs => rw [repair.eq_def]
    simp only [if_neg h1, dif_pos h2, neg_neg]

/-- Witness for C8 at a concrete input. -/
theorem repair_identity_swap_witness :
    ((13 : ℤ) ∈ mode_list) ∧
    (repair (VNode.src 0 8 8 8) (VNode.src 1 8 8 8) 0 none = .ok (VNode.src 0 8 8 8) ∧
     repair (VNode.src 0 8 8 8) (VNode.src 1 8 8 8) (-13) none
       = repair (VNode.src 1 8 8 8) (VNode.src 0 8 8 8) 13 none) :=
  ⟨by decide, repair_identity_swap (VNode.src 0 8 8 8) (VNode.src 1 8 8 8) none 13 (by decide)⟩

/-- Claim C9: `ee2x` without both filters supplied returns a validation
error whose message names the missing argument (it names both `nnedi3`
and `eedi3`), and no interpolation result is produced. -/
theorem ee2x_missing_filter_error (clip : ResClip) (nnedi3 eedi3 : Option Deint)
    (with_nn : Bool) (h : nnedi3 = none ∨ eedi3 = none) :
    ee2x clip nnedi3 eedi3 with_nn = .error "ee2x: both nnedi3 and eedi3 must be available" ∧
    (nnedi3 = none →
      "nnedi3".toList <:+: ("ee2x: both nnedi3 and eedi3 must be available").toList) ∧
    (eedi3 = none →
      "eedi3".toList <:+: ("ee2x: both nnedi3 and eedi3 must be available").toList) := by
  refine ⟨?_, fun _ => by decide, fun _ => by decide⟩
  rcases nnedi3 with _ | n <;> rcases eedi3 with _ | e
  · rfl
  · rfl
  · rfl
  · rcases h with h | h <;> simp at h

/-- Witness for C9 at a concrete input. -/
theorem ee2x_missing_filter_error_witness :
    ((none : Option Deint) = none ∨ (some (fun a : FilterArgs => a.clip) : Option Deint) = none) ∧
    (ee2x ⟨VNode.src 0 4 4 8, 0, 0, 4, 4⟩ none (some (fun a : FilterArgs => a.clip)) false
       = .error "ee2x: both nnedi3 and eedi3 must be available" ∧
     ((none : Option Deint) = none →
       "nnedi3".toList <:+: ("ee2x: both nnedi3 and eedi3 must be available").toList) ∧
     ((some (fun a : FilterArgs => a.clip) : Option Deint) = none →
       "eedi3".toList <:+: ("ee2x: both nnedi3 and eedi3 must be available").toList)) :=
  ⟨Or.inl rfl, ee2x_missing_filter_error ⟨VNode.src 0 4 4 8, 0, 0, 4, 4⟩ none
    (some (fun a : FilterArgs => a.clip)) false (Or.inl rfl)⟩

end Yvsfunc
